import Mathlib

/-!
Verification development for the hype_allocation repository.

The repository builds a MILP that assigns integer "runs" of SKUs to store
doors (src/allocation_model.py) and extracts stakeholder reports from a
solved model.  The source file interleaves two drafts; following the design
document, the later tier/heat full-size-run formulation is the canonical
program and is what is embedded here: the data model (`AllocationData`),
the model builder (`build_allocation_model`), the result extractors
(`summarize_allocations`, `constraint_slacks`) and the table-level
constructor (`allocation_data_from_tables`).

Python dictionaries are embedded as `Option`-valued lookups where the code
uses `.get` with a default, and as total functions (built with `Option.getD`
over the dictionary lookup) where the code indexes with `d[k]` on a domain
guaranteed by the upstream validation.  Real-valued quantities (scores,
ratios) are embedded as rationals; integer quantities as `Int`.
-/

namespace HypeAllocation

abbrev Door := String
abbrev SKU := String
abbrev Size := String
abbrev Tier := String
abbrev Heat := String

/-- Embedding of the `AllocationData` dataclass (canonical tier/heat fields
of src/allocation_model.py, lines 68-87).  `eligible` and `cap_runs_total`
keep the dictionary's partiality because the builder reads them with
`.get(key, default)`; `door_tier`, `heat`, `score`, `max_runs` and `ratio`
are read with `d[key]` on the validated domain and are embedded as total
functions.  `supply_units` is kept as the dictionary's item list because the
builder iterates `data.supply_units.items()`.  `min_runs` mirrors the
optional `Mapping | None` field. -/
structure AllocationData where
  doors : List Door
  sizes : List Size
  skus : List SKU
  door_tier : Door → Tier
  sku_sizes : SKU → List Size
  eligible : Door → SKU → Option Int
  heat : SKU → Heat
  score : Tier → Heat → ℚ
  max_runs : Tier → Heat → Int
  supply_units : List ((SKU × Size) × Int)
  ratio : SKU → Size → ℚ
  cap_runs_total : Tier → Option ℚ
  min_runs : Option (Door → SKU → Option Int)

/-- Sense of a linear constraint (Gurobi `<=` / `>=`). -/
inductive Sense where
  | le
  | ge
deriving DecidableEq

/-- Right-hand side of a constraint: a finite value or `GRB.INFINITY`. -/
inductive Bound where
  | fin (q : ℚ)
  | inf
deriving DecidableEq

/-- A named linear constraint over the `runs[door, sku]` variables. -/
structure LinConstr where
  name : String
  terms : List ((Door × SKU) × ℚ)
  sense : Sense
  rhs : Bound

/-- The built integer program: objective terms (coefficient of each
`runs[door, sku]` variable), optimization direction, and constraint list.
The variable grid itself is dense over doors × skus with integer type and
lower bound 0 (`model.addVars(..., vtype=GRB.INTEGER, lb=0)`). -/
structure IPModel where
  objective : List ((Door × SKU) × ℚ)
  maximize : Bool
  constraints : List LinConstr

/-- Embedding of `_min_runs` (src/allocation_model.py lines 202-205). -/
def _min_runs (data : AllocationData) (door : Door) (sku : SKU) : Int :=
  match data.min_runs with
  | none => 0
  | some m => (m door sku).getD 0

/-- The eligibility + per-pair cap constraint
`runs[d, s] <= Eligible.get((d, s), 0) * MaxRuns[(tier(d), heat(s))]`
(src/allocation_model.py lines 244-255, canonical tier/heat cap). -/
def eligibilityConstr (data : AllocationData) (door : Door) (sku : SKU) : LinConstr :=
  { name := "eligibility[" ++ door ++ "," ++ sku ++ "]"
    terms := [((door, sku), 1)]
    sense := Sense.le
    rhs := Bound.fin
      (((data.eligible door sku).getD 0 * data.max_runs (data.door_tier door) (data.heat sku) : Int) : ℚ) }

/-- The optional minimum-runs constraint `runs[d, s] >= min_bound`
(src/allocation_model.py lines 263-268), emitted per (door, sku) when
`_min_runs` is non-zero (Python truthiness of the integer bound). -/
def minRunsConstr (door : Door) (sku : SKU) (m : Int) : LinConstr :=
  { name := "min_runs[" ++ door ++ "," ++ sku ++ "]"
    terms := [((door, sku), 1)]
    sense := Sense.ge
    rhs := Bound.fin (m : ℚ) }

/-- The supply constraint `sum_d ratio[s, z] * runs[d, s] <= supply`
for one `(s, z)` entry of `supply_units` (src/allocation_model.py
lines 257-261). -/
def supplyConstr (data : AllocationData) (sku : SKU) (size : Size) (supply : Int) : LinConstr :=
  { name := "supply[" ++ sku ++ "," ++ size ++ "]"
    terms := data.doors.map (fun door => ((door, sku), data.ratio sku size))
    sense := Sense.le
    rhs := Bound.fin (supply : ℚ) }

/-- The anti-concentration constraint
`sum_s runs[d, s] <= CapRunsTotal.get(tier(d), GRB.INFINITY)`
(src/allocation_model.py lines 279-285). -/
def capRunsTotalConstr (data : AllocationData) (door : Door) : LinConstr :=
  { name := "cap_runs_total[" ++ door ++ "]"
    terms := data.skus.map (fun sku => ((door, sku), 1))
    sense := Sense.le
    rhs :=
      match data.cap_runs_total (data.door_tier door) with
      | some q => Bound.fin q
      | none => Bound.inf }

/-- Embedding of `build_allocation_model` (src/allocation_model.py,
canonical tier/heat strand):
objective `sum runs[d, s] * Score[(tier(d), heat(s))]` maximized;
per (door, sku) the eligibility constraint and, when `_min_runs` is
non-zero, the minimum-runs constraint; per `supply_units` item the supply
constraint; per door the anti-concentration constraint. -/
def build_allocation_model (data : AllocationData) : IPModel :=
  { objective :=
      data.doors.flatMap (fun door =>
        data.skus.map (fun sku =>
          ((door, sku), data.score (data.door_tier door) (data.heat sku))))
    maximize := true
    constraints :=
      (data.doors.flatMap (fun door =>
        data.skus.flatMap (fun sku =>
          eligibilityConstr data door sku ::
            (if _min_runs data door sku = 0 then []
             else [minRunsConstr door sku (_min_runs data door sku)]))))
      ++ data.supply_units.map (fun x => supplyConstr data x.1.1 x.1.2 x.2)
      ++ data.doors.map (fun door => capRunsTotalConstr data door) }

/-- Value of a linear expression at an integer assignment of the
`runs` variables. -/
def termsEval (sol : Door → SKU → Int) (terms : List ((Door × SKU) × ℚ)) : ℚ :=
  (terms.map (fun t => t.2 * ((sol t.1.1 t.1.2 : Int) : ℚ))).sum

/-- Satisfaction of one constraint by an assignment. -/
def satisfiesConstr (sol : Door → SKU → Int) (c : LinConstr) : Prop :=
  match c.sense, c.rhs with
  | Sense.le, Bound.fin q => termsEval sol c.terms ≤ q
  | Sense.le, Bound.inf => True
  | Sense.ge, Bound.fin q => q ≤ termsEval sol c.terms
  | Sense.ge, Bound.inf => False

/-- A feasible solution of the built program: integer `runs` values that
respect the variable lower bound 0 on the door × SKU grid and satisfy
every emitted constraint. -/
def feasible (data : AllocationData) (sol : Door → SKU → Int) : Prop :=
  (∀ d ∈ data.doors, ∀ s ∈ data.skus, 0 ≤ sol d s) ∧
    ∀ c ∈ (build_allocation_model data).constraints, satisfiesConstr sol c

/-- Objective value of the built program at an assignment. -/
def objectiveValue (m : IPModel) (sol : Door → SKU → Int) : ℚ :=
  termsEval sol m.objective

/-- One row of the stakeholder allocation report
(src/allocation_model.py lines 135-146 plus the `door_size_units` column
attached at lines 148-149).  The Python dict gains `door_size_units` only
in the second pass; here the field is initialized to 0 and overwritten by
that pass. -/
structure AllocRow where
  door : Door
  sku : SKU
  size : Size
  runs : ℚ
  ratio : ℚ
  units : ℚ
  score : ℚ
  heat : Heat
  door_size_units : ℚ

/-- First pass of `summarize_allocations`: for each (door, sku) with runs
value above the tolerance, one row per size in the SKU run curve
(src/allocation_model.py lines 123-146). -/
def baseRows (data : AllocationData) (runsVal : Door → SKU → ℚ) (tolerance : ℚ) :
    List AllocRow :=
  data.doors.flatMap (fun door =>
    data.skus.flatMap (fun sku =>
      if runsVal door sku ≤ tolerance then []
      else
        (data.sku_sizes sku).map (fun size =>
          { door := door
            sku := sku
            size := size
            runs := runsVal door sku
            ratio := data.ratio sku size
            units := data.ratio sku size * runsVal door sku
            score := data.score (data.door_tier door) (data.heat sku)
            heat := data.heat sku
            door_size_units := 0 })))

/-- Final value of the `units_by_door_size` accumulator at one key: the sum
of `units` over all rows carrying that (door, size)
(src/allocation_model.py line 134). -/
def unitsByDoorSize (rows : List AllocRow) (door : Door) (size : Size) : ℚ :=
  ((rows.filter (fun r => decide (r.door = door) && decide (r.size = size))).map
    (fun r => r.units)).sum

/-- Embedding of `AllocationModel.summarize_allocations`
(src/allocation_model.py lines 108-149 and `return rows`): fails when the
solution count is zero, otherwise emits the report rows with the
`door_size_units` column attached in a second pass.  `solCount` and
`runsVal` are the solver state the method reads (`model.SolCount`,
`runs[door, sku].X`). -/
def summarize_allocations (data : AllocationData) (solCount : Nat)
    (runsVal : Door → SKU → ℚ) (tolerance : ℚ) : Except String (List AllocRow) :=
  if solCount = 0 then Except.error "Model has no solution to summarize."
  else
    let rows := baseRows data runsVal tolerance
    Except.ok (rows.map (fun row =>
      { row with door_size_units := unitsByDoorSize rows row.door row.size }))

/-- Per-constraint diagnostics read back from the solved model
(`ConstrName`, `Slack`, `RHS`, `Sense`). -/
structure ConstrDiag where
  name : String
  slack : ℚ
  rhs : ℚ
  sense : String

/-- Embedding of `AllocationModel.constraint_slacks`
(src/allocation_model.py lines 173-188): fails when the solution count is
zero, otherwise emits one row per constraint of the solved model with
name, slack, rhs and sense. -/
def constraint_slacks (solCount : Nat) (constrs : List ConstrDiag) :
    Except String (List ConstrDiag) :=
  if solCount = 0 then Except.error "Model has no solution; optimize first."
  else
    Except.ok (constrs.map (fun c =>
      { name := c.name, slack := c.slack, rhs := c.rhs, sense := c.sense }))

/-! ## Table-level constructor (`allocation_data_from_tables`)

Input tables are row-record lists with the column shapes documented at
src/allocation_model.py lines 312-320.  Python dictionaries built from
records keep the last value for a duplicated key; `dictGet` mirrors that.
Python `sorted` on strings and on string tuples is lexicographic by code
point, mirrored by `strLeB` / `pairLeB` over the character lists. -/

structure DoorRow where
  door : Door
  tier : Tier

structure ArticleRow where
  sku : SKU
  size : Size

structure EligibilityRow where
  door : Door
  sku : SKU
  eligible : Int

structure SupplyRow where
  sku : SKU
  size : Size
  supply_units : Int
  ratio : ℚ

structure HeatRow where
  sku : SKU
  heat : Heat

structure TierCapRunsRow where
  tier : Tier
  heat : Heat
  max_runs : Int
  score : ℚ

structure TierCapacityRow where
  tier : Tier
  cap_runs_total : ℚ

/-- Dictionary lookup with Python semantics (last binding wins). -/
def dictGet {κ ν : Type} [DecidableEq κ] (rows : List (κ × ν)) (k : κ) : Option ν :=
  (rows.reverse.find? (fun p => decide (p.1 = k))).map (fun p => p.2)

/-- Key set of a dictionary built from records (first-occurrence order). -/
def dictKeys {κ ν : Type} [DecidableEq κ] (rows : List (κ × ν)) : List κ :=
  (rows.map (fun p => p.1)).dedup

/-- Item list of a dictionary built from records: keys in first-occurrence
order, each paired with its last-bound value. -/
def dictItems {κ ν : Type} [DecidableEq κ] (rows : List (κ × ν)) : List (κ × ν) :=
  (dictKeys rows).filterMap (fun k => (dictGet rows k).map (fun v => (k, v)))

/-- Code-point order on strings (Python string comparison). -/
def strLe (a b : String) : Prop := a.data ≤ b.data

instance : DecidableRel strLe := fun a b =>
  inferInstanceAs (Decidable (a.data ≤ b.data))

instance : IsTrans String strLe :=
  ⟨fun _ _ _ h1 h2 => le_trans h1 h2⟩

instance : IsTotal String strLe :=
  ⟨fun x y => le_total x.data y.data⟩

/-- Code-point lexicographic order on string pairs (Python tuple
comparison). -/
def pairLe (a b : String × String) : Prop :=
  a.1.data < b.1.data ∨ (a.1.data = b.1.data ∧ a.2.data ≤ b.2.data)

instance : DecidableRel pairLe := fun _ _ =>
  inferInstanceAs (Decidable (_ ∨ _))

instance : IsTrans (String × String) pairLe := by
  refine ⟨fun a b c h1 h2 => ?_⟩
  rcases h1 with h1 | ⟨h1, h1b⟩ <;> rcases h2 with h2 | ⟨h2, h2b⟩
  · exact Or.inl (lt_trans h1 h2)
  · exact Or.inl (h2 ▸ h1)
  · exact Or.inl (h1 ▸ h2)
  · exact Or.inr ⟨h1.trans h2, le_trans h1b h2b⟩

instance : IsTotal (String × String) pairLe := by
  refine ⟨fun a b => ?_⟩
  rcases lt_trichotomy a.1.data b.1.data with h | h | h
  · exact Or.inl (Or.inl h)
  · rcases le_total a.2.data b.2.data with h2 | h2
    · exact Or.inl (Or.inr ⟨h, h2⟩)
    · exact Or.inr (Or.inr ⟨h.symm, h2⟩)
  · exact Or.inr (Or.inl h)

/-- Python `sorted(set(l))` for strings. -/
def sortedUnique (l : List String) : List String := l.dedup.insertionSort strLe

/-- Python `sorted(doors["door"].unique())`. -/
def doorsListOf (doors : List DoorRow) : List Door :=
  sortedUnique (doors.map (fun r => r.door))

/-- Python `sorted(articles["sku"].unique())`. -/
def skusOf (articles : List ArticleRow) : List SKU :=
  sortedUnique (articles.map (fun r => r.sku))

/-- Python `sorted(articles["size"].unique())`. -/
def sizesOf (articles : List ArticleRow) : List Size :=
  sortedUnique (articles.map (fun r => r.size))

/-- The per-SKU run curve: sorted set of sizes of that SKU's article rows
(src/allocation_model.py lines 354-357). -/
def skuSizesOf (articles : List ArticleRow) (sku : SKU) : List Size :=
  sortedUnique ((articles.filter (fun r => decide (r.sku = sku))).map (fun r => r.size))

def doorTierMapOf (doors : List DoorRow) : Door → Option Tier :=
  dictGet (doors.map (fun r => (r.door, r.tier)))

def eligibleMapOf (eligibility : List EligibilityRow) : Door × SKU → Option Int :=
  dictGet (eligibility.map (fun r => ((r.door, r.sku), r.eligible)))

def supplyUnitsMapOf (supply : List SupplyRow) : SKU × Size → Option Int :=
  dictGet (supply.map (fun r => ((r.sku, r.size), r.supply_units)))

def ratioMapOf (supply : List SupplyRow) : SKU × Size → Option ℚ :=
  dictGet (supply.map (fun r => ((r.sku, r.size), r.ratio)))

def heatMapOf (heat : List HeatRow) : SKU → Option Heat :=
  dictGet (heat.map (fun r => (r.sku, r.heat)))

def maxRunsMapOf (tier_cap_runs : List TierCapRunsRow) : Tier × Heat → Option Int :=
  dictGet (tier_cap_runs.map (fun r => ((r.tier, r.heat), r.max_runs)))

def scoreMapOf (tier_cap_runs : List TierCapRunsRow) : Tier × Heat → Option ℚ :=
  dictGet (tier_cap_runs.map (fun r => ((r.tier, r.heat), r.score)))

def capRunsTotalMapOf (tier_capacity : List TierCapacityRow) : Tier → Option ℚ :=
  dictGet (tier_capacity.map (fun r => (r.tier, r.cap_runs_total)))

/-- `sorted(set(skus) - set(heat_map))` (src/allocation_model.py line 371). -/
def missingHeatOf (articles : List ArticleRow) (heat : List HeatRow) : List SKU :=
  ((skusOf articles).filter (fun s => (heatMapOf heat s).isNone)).insertionSort strLe

/-- The (sku, size) keys of every run curve
(src/allocation_model.py line 375). -/
def expectedSizeKeysOf (articles : List ArticleRow) : List (SKU × Size) :=
  (skusOf articles).flatMap (fun s => (skuSizesOf articles s).map (fun z => (s, z)))

/-- `sorted(expected_size_keys - set(supply_units_map))`
(src/allocation_model.py line 376). -/
def missingSupplyOf (articles : List ArticleRow) (supply : List SupplyRow) :
    List (SKU × Size) :=
  ((expectedSizeKeysOf articles).filter
    (fun p => (supplyUnitsMapOf supply p).isNone)).insertionSort pairLe

/-- `set(door_tier_map.values())` (src/allocation_model.py line 380). -/
def tiersOf (doors : List DoorRow) : List Tier :=
  (((doors.map (fun r => r.door)).dedup).filterMap (fun d => doorTierMapOf doors d)).dedup

/-- `{(tier, heat_map[sku]) for sku in skus for tier in tiers}`
(src/allocation_model.py line 381); the `none` branch is unreachable once
the heat check has passed. -/
def requiredPairsOf (doors : List DoorRow) (articles : List ArticleRow)
    (heat : List HeatRow) : List (Tier × Heat) :=
  ((skusOf articles).flatMap (fun s =>
    match heatMapOf heat s with
    | some h => (tiersOf doors).map (fun t => (t, h))
    | none => [])).dedup

/-- `sorted(required_pairs - set(score_map))` (src/allocation_model.py
lines 382, 385). -/
def missingScoreOf (doors : List DoorRow) (articles : List ArticleRow)
    (heat : List HeatRow) (tier_cap_runs : List TierCapRunsRow) : List (Tier × Heat) :=
  ((requiredPairsOf doors articles heat).filter
    (fun p => (scoreMapOf tier_cap_runs p).isNone)).insertionSort pairLe

/-- `sorted(required_pairs - set(max_runs_map))` (src/allocation_model.py
lines 383, 387). -/
def missingMaxRunsOf (doors : List DoorRow) (articles : List ArticleRow)
    (heat : List HeatRow) (tier_cap_runs : List TierCapRunsRow) : List (Tier × Heat) :=
  ((requiredPairsOf doors articles heat).filter
    (fun p => (maxRunsMapOf tier_cap_runs p).isNone)).insertionSort pairLe

/-- Rendering of a Python list of strings inside an error message. -/
def renderStrList (l : List String) : String :=
  "[" ++ String.intercalate ", " l ++ "]"

/-- Rendering of a Python list of string pairs inside an error message. -/
def renderPairList (l : List (String × String)) : String :=
  "[" ++ String.intercalate ", " (l.map (fun p => "(" ++ p.1 ++ ", " ++ p.2 ++ ")")) ++ "]"

/-- The fixed message of the supply/ratio key-set check
(src/allocation_model.py line 390). -/
def supplyRatioMismatchMsg : String :=
  "Supply and ratio tables must share identical (sku, size) keys."

/-- Set equality of two key lists (`set(a) == set(b)`). -/
def sameKeySet (a b : List (SKU × Size)) : Bool :=
  a.all (fun k => decide (k ∈ b)) && b.all (fun k => decide (k ∈ a))

/-- The supply/ratio key-set check of src/allocation_model.py lines
389-390, over the key sets of the two dictionaries. -/
def checkSupplyRatioKeys (supplyKeys ratioKeys : List (SKU × Size)) :
    Except String Unit :=
  if sameKeySet supplyKeys ratioKeys then Except.ok ()
  else Except.error supplyRatioMismatchMsg

/-- Embedding of `allocation_data_from_tables` (src/allocation_model.py
lines 301-404, canonical tier/heat table shapes): validation checks in
source order, then the assembled `AllocationData`.  The `getD` defaults
turn the validated dictionaries into the total lookups of
`AllocationData`; each defaulted key is outside the domain the builder and
extractors read (the Python code would raise `KeyError` there). -/
def allocation_data_from_tables (doors : List DoorRow) (articles : List ArticleRow)
    (eligibility : List EligibilityRow) (supply : List SupplyRow)
    (heat : List HeatRow) (tier_cap_runs : List TierCapRunsRow)
    (tier_capacity : List TierCapacityRow) : Except String AllocationData :=
  if missingHeatOf articles heat ≠ [] then
    Except.error ("Missing heat entries for SKUs: " ++
      renderStrList (missingHeatOf articles heat))
  else if missingSupplyOf articles supply ≠ [] then
    Except.error ("Missing supply entries for SKU×size pairs: " ++
      renderPairList (missingSupplyOf articles supply))
  else if missingScoreOf doors articles heat tier_cap_runs ≠ [] then
    Except.error ("Missing score entries for tier/heat pairs: " ++
      renderPairList (missingScoreOf doors articles heat tier_cap_runs))
  else if missingMaxRunsOf doors articles heat tier_cap_runs ≠ [] then
    Except.error ("Missing max_runs entries for tier/heat pairs: " ++
      renderPairList (missingMaxRunsOf doors articles heat tier_cap_runs))
  else
    match checkSupplyRatioKeys
        (dictKeys (supply.map (fun r => ((r.sku, r.size), r.supply_units))))
        (dictKeys (supply.map (fun r => ((r.sku, r.size), r.ratio)))) with
    | Except.error e => Except.error e
    | Except.ok _ =>
      Except.ok
        { doors := doorsListOf doors
          sizes := sizesOf articles
          skus := skusOf articles
          door_tier := fun d => (doorTierMapOf doors d).getD ""
          sku_sizes := skuSizesOf articles
          eligible := fun d s => eligibleMapOf eligibility (d, s)
          heat := fun s => (heatMapOf heat s).getD ""
          score := fun t h => (scoreMapOf tier_cap_runs (t, h)).getD 0
          max_runs := fun t h => (maxRunsMapOf tier_cap_runs (t, h)).getD 0
          supply_units := dictItems (supply.map (fun r => ((r.sku, r.size), r.supply_units)))
          ratio := fun s z => (ratioMapOf supply (s, z)).getD 0
          cap_runs_total := fun t => capRunsTotalMapOf tier_capacity t
          min_runs := none }

/-! ## Helper lemmas -/

theorem termsEval_append (sol : Door → SKU → Int)
    (l1 l2 : List ((Door × SKU) × ℚ)) :
    termsEval sol (l1 ++ l2) = termsEval sol l1 + termsEval sol l2 := by
  simp [termsEval]

theorem termsEval_flatMap {α : Type} (sol : Door → SKU → Int) (l : List α)
    (f : α → List ((Door × SKU) × ℚ)) :
    termsEval sol (l.flatMap f) = (l.map (fun a => termsEval sol (f a))).sum := by
  induction l with
  | nil => simp [termsEval]
  | cons a t ih =>
    rw [List.flatMap_cons, termsEval_append, ih, List.map_cons, List.sum_cons]

theorem termsEval_singleton (sol : Door → SKU → Int) (d : Door) (s : SKU) (q : ℚ) :
    termsEval sol [((d, s), q)] = q * ((sol d s : Int) : ℚ) := by
  simp [termsEval]

theorem eligibilityConstr_mem (data : AllocationData) (d : Door) (s : SKU)
    (hd : d ∈ data.doors) (hs : s ∈ data.skus) :
    eligibilityConstr data d s ∈ (build_allocation_model data).constraints := by
  unfold build_allocation_model
  refine List.mem_append_left _ (List.mem_append_left _ (List.mem_flatMap.mpr ⟨d, hd, ?_⟩))
  exact List.mem_flatMap.mpr ⟨s, hs, List.mem_cons_self _ _⟩

theorem lb_of_feasible (data : AllocationData) (sol : Door → SKU → Int)
    (h : feasible data sol) (d : Door) (s : SKU) (hd : d ∈ data.doors)
    (hs : s ∈ data.skus) : 0 ≤ sol d s :=
  h.1 d hd s hs

/-- A concrete data model used by the witnesses, mirroring the spec's
end-to-end scenario: doors d1 (tier A) and d2 (tier B), SKU s1 with heat H
and run-curve sizes S and M, eligibility only for (d2, s1), supply 6 units
of size S at ratio 2 and 9 units of size M at ratio 3, tier capacity only
for tier A. -/
def sampleData : AllocationData :=
  { doors := ["d1", "d2"]
    sizes := ["M", "S"]
    skus := ["s1"]
    door_tier := fun d => if d = "d1" then "A" else "B"
    sku_sizes := fun _ => ["M", "S"]
    eligible := fun d s => if d = "d2" && s = "s1" then some 1 else none
    heat := fun _ => "H"
    score := fun t _ => if t = "A" then 10 else 5
    max_runs := fun _ _ => 3
    supply_units := [(("s1", "S"), 6), (("s1", "M"), 9)]
    ratio := fun _ z => if z = "S" then 2 else 3
    cap_runs_total := fun t => if t = "A" then some 3 else none
    min_runs := none }

/-- The sample data model with a minimum-runs table holding a positive
minimum for (d2, s1). -/
def sampleDataMin : AllocationData :=
  { sampleData with
      min_runs := some (fun d s => if d = "d2" && s = "s1" then some 2 else none) }

/-- Whether `small` occurs at the head of `big`. -/
def startsWithSeq : List Char → List Char → Bool
  | _, [] => true
  | [], _ :: _ => false
  | a :: as, b :: bs => decide (a = b) && startsWithSeq as bs

/-- Whether `small` occurs contiguously anywhere inside `big` (used to ask
whether an error message mentions a given identifier). -/
def containsSeq : List Char → List Char → Bool
  | [], small => startsWithSeq [] small
  | a :: t, small => startsWithSeq (a :: t) small || containsSeq t small

/-! ## Claim theorems -/

/-- Claim C1: for every (door, SKU) pair of the door × SKU universe the
built program contains the constraint
`runs[door, sku] <= eligible(door, sku) * maxRuns(tier(door), heat(sku))`
with a missing eligibility edge counting as 0, and consequently every
feasible solution has `runs[door, sku] = 0` whenever the eligibility flag
is 0. -/
theorem C1_eligibility_cap (data : AllocationData) (d : Door) (s : SKU)
    (hd : d ∈ data.doors) (hs : s ∈ data.skus) :
    ({ name := "eligibility[" ++ d ++ "," ++ s ++ "]"
       terms := [((d, s), 1)]
       sense := Sense.le
       rhs := Bound.fin (((data.eligible d s).getD 0 *
         data.max_runs (data.door_tier d) (data.heat s) : Int) : ℚ) } : LinConstr)
      ∈ (build_allocation_model data).constraints ∧
    ∀ sol : Door → SKU → Int, feasible data sol →
      (data.eligible d s).getD 0 = 0 → sol d s = 0 := by
  constructor
  · exact eligibilityConstr_mem data d s hd hs
  · intro sol hf helig
    have hsat := hf.2 _ (eligibilityConstr_mem data d s hd hs)
    have hle : ((sol d s : Int) : ℚ) ≤ (((data.eligible d s).getD 0 *
        data.max_runs (data.door_tier d) (data.heat s) : Int) : ℚ) := by
      have := hsat
      unfold satisfiesConstr eligibilityConstr at this
      simpa [termsEval] using this
    rw [helig, zero_mul] at hle
    have h0 : sol d s ≤ 0 := by exact_mod_cast hle
    have h1 : 0 ≤ sol d s := hf.1 d hd s hs
    omega

/-- Witness for C1 at a concrete data model: door "d1", SKU "s1", no
eligibility edge. -/
theorem C1_eligibility_cap_witness :
    ({ name := "eligibility[" ++ "d1" ++ "," ++ "s1" ++ "]"
       terms := [(("d1", "s1"), 1)]
       sense := Sense.le
       rhs := Bound.fin (((sampleData.eligible "d1" "s1").getD 0 *
         sampleData.max_runs (sampleData.door_tier "d1") (sampleData.heat "s1") : Int) : ℚ) } : LinConstr)
      ∈ (build_allocation_model sampleData).constraints ∧
    ∀ sol : Door → SKU → Int, feasible sampleData sol →
      (sampleData.eligible "d1" "s1").getD 0 = 0 → sol "d1" "s1" = 0 :=
  C1_eligibility_cap sampleData "d1" "s1" (by decide) (by decide)

/-- Claim C2: for every (SKU, size) pair with a supply entry the built
program contains `sum_d ratio(sku, size) * runs[d, sku] <= supply`, so
every feasible solution satisfies that bound. -/
theorem C2_supply_bound (data : AllocationData) (sku : SKU) (size : Size)
    (supply : Int) (h : ((sku, size), supply) ∈ data.supply_units) :
    ({ name := "supply[" ++ sku ++ "," ++ size ++ "]"
       terms := data.doors.map (fun door => ((door, sku), data.ratio sku size))
       sense := Sense.le
       rhs := Bound.fin (supply : ℚ) } : LinConstr)
      ∈ (build_allocation_model data).constraints ∧
    ∀ sol : Door → SKU → Int, feasible data sol →
      (data.doors.map (fun door =>
        data.ratio sku size * ((sol door sku : Int) : ℚ))).sum ≤ (supply : ℚ) := by
  have hmem : supplyConstr data sku size supply ∈
      (build_allocation_model data).constraints := by
    unfold build_allocation_model
    refine List.mem_append_left _ (List.mem_append_right _ ?_)
    exact List.mem_map.mpr ⟨((sku, size), supply), h, rfl⟩
  constructor
  · exact hmem
  · intro sol hf
    have hsat := hf.2 _ hmem
    unfold satisfiesConstr supplyConstr at hsat
    simpa [termsEval, List.map_map, Function.comp_def] using hsat

/-- Witness for C2 at a concrete data model with one supply entry. -/
theorem C2_supply_bound_witness :
    ({ name := "supply[" ++ "s1" ++ "," ++ "S" ++ "]"
       terms := sampleData.doors.map (fun door => ((door, "s1"), sampleData.ratio "s1" "S"))
       sense := Sense.le
       rhs := Bound.fin ((6 : Int) : ℚ) } : LinConstr)
      ∈ (build_allocation_model sampleData).constraints ∧
    ∀ sol : Door → SKU → Int, feasible sampleData sol →
      (sampleData.doors.map (fun door =>
        sampleData.ratio "s1" "S" * ((sol door "s1" : Int) : ℚ))).sum ≤ ((6 : Int) : ℚ) :=
  C2_supply_bound sampleData "s1" "S" 6 (by decide)

/-- Claim C3: for every door the built program contains the
anti-concentration constraint `sum_s runs[door, s] <= capRunsTotal(tier)`;
when the tier has a capacity entry every feasible solution respects it, and
when the tier has no entry the emitted bound is infinite (never zero), so
the constraint restricts nothing. -/
theorem C3_anti_concentration (data : AllocationData) (d : Door)
    (hd : d ∈ data.doors) :
    capRunsTotalConstr data d ∈ (build_allocation_model data).constraints ∧
    (capRunsTotalConstr data d).terms = data.skus.map (fun s => ((d, s), 1)) ∧
    (∀ q : ℚ, data.cap_runs_total (data.door_tier d) = some q →
      ∀ sol : Door → SKU → Int, feasible data sol →
        (data.skus.map (fun s => ((sol d s : Int) : ℚ))).sum ≤ q) ∧
    (data.cap_runs_total (data.door_tier d) = none →
      (capRunsTotalConstr data d).rhs = Bound.inf ∧
      ∀ sol : Door → SKU → Int, satisfiesConstr sol (capRunsTotalConstr data d)) := by
  have hmem : capRunsTotalConstr data d ∈
      (build_allocation_model data).constraints := by
    unfold build_allocation_model
    refine List.mem_append_right _ ?_
    exact List.mem_map.mpr ⟨d, hd, rfl⟩
  refine ⟨hmem, rfl, ?_, ?_⟩
  · intro q hq sol hf
    have hsat := hf.2 _ hmem
    unfold satisfiesConstr capRunsTotalConstr at hsat
    rw [hq] at hsat
    simpa [termsEval, List.map_map, Function.comp_def] using hsat
  · intro hnone
    constructor
    · unfold capRunsTotalConstr
      rw [hnone]
    · intro sol
      unfold satisfiesConstr capRunsTotalConstr
      rw [hnone]
      exact trivial

/-- Witness for C3 at a concrete data model, at a door whose tier has a
capacity entry and at one whose tier has none. -/
theorem C3_anti_concentration_witness :
    capRunsTotalConstr sampleData "d2" ∈ (build_allocation_model sampleData).constraints ∧
    (capRunsTotalConstr sampleData "d2").terms = sampleData.skus.map (fun s => (("d2", s), 1)) ∧
    (∀ q : ℚ, sampleData.cap_runs_total (sampleData.door_tier "d2") = some q →
      ∀ sol : Door → SKU → Int, feasible sampleData sol →
        (sampleData.skus.map (fun s => ((sol "d2" s : Int) : ℚ))).sum ≤ q) ∧
    (sampleData.cap_runs_total (sampleData.door_tier "d2") = none →
      (capRunsTotalConstr sampleData "d2").rhs = Bound.inf ∧
      ∀ sol : Door → SKU → Int, satisfiesConstr sol (capRunsTotalConstr sampleData "d2")) :=
  C3_anti_concentration sampleData "d2" (by decide)

/-- Claim C4: the objective of the built program maximizes
`sum over (door, sku) of runs[door, sku] * score(tier(door), heat(sku))`,
with exactly one term per (door, SKU) pair and no secondary tie-break
term. -/
theorem C4_objective (data : AllocationData) :
    (build_allocation_model data).maximize = true ∧
    (build_allocation_model data).objective =
      data.doors.flatMap (fun d => data.skus.map (fun s =>
        ((d, s), data.score (data.door_tier d) (data.heat s)))) ∧
    ∀ sol : Door → SKU → Int,
      objectiveValue (build_allocation_model data) sol =
        (data.doors.map (fun d =>
          (data.skus.map (fun s =>
            ((sol d s : Int) : ℚ) * data.score (data.door_tier d) (data.heat s))).sum)).sum := by
  refine ⟨rfl, rfl, ?_⟩
  intro sol
  unfold objectiveValue build_allocation_model
  rw [termsEval_flatMap]
  refine congrArg List.sum (List.map_congr_left ?_)
  intro d _
  unfold termsEval
  rw [List.map_map]
  refine congrArg List.sum (List.map_congr_left ?_)
  intro s _
  simp [mul_comm]

/-- Claim C7: when the minimum-runs lookup for a (door, SKU) pair is
positive the built program contains `runs[door, sku] >= minRuns(door, sku)`;
when the lookup yields 0 (no edge, edge value 0, or no table at all) no
minimum (>=) constraint on that pair's variable is emitted. -/
theorem C7_min_runs_emission (data : AllocationData) (d : Door) (s : SKU)
    (hd : d ∈ data.doors) (hs : s ∈ data.skus) :
    (0 < _min_runs data d s →
      ({ name := "min_runs[" ++ d ++ "," ++ s ++ "]"
         terms := [((d, s), 1)]
         sense := Sense.ge
         rhs := Bound.fin ((_min_runs data d s : Int) : ℚ) } : LinConstr)
        ∈ (build_allocation_model data).constraints) ∧
    (_min_runs data d s = 0 →
      ∀ c ∈ (build_allocation_model data).constraints,
        ¬(c.sense = Sense.ge ∧ c.terms = [((d, s), 1)])) := by
  constructor
  · intro hpos
    unfold build_allocation_model
    refine List.mem_append_left _ (List.mem_append_left _
      (List.mem_flatMap.mpr ⟨d, hd, ?_⟩))
    refine List.mem_flatMap.mpr ⟨s, hs, ?_⟩
    rw [if_neg (by omega)]
    exact List.mem_cons_of_mem _ (List.mem_cons_self _ _)
  · intro hzero c hc hbad
    obtain ⟨hsense, hterms⟩ := hbad
    unfold build_allocation_model at hc
    rcases List.mem_append.mp hc with hAB | hC
    · rcases List.mem_append.mp hAB with hA | hB
      · rcases List.mem_flatMap.mp hA with ⟨d2, hd2, hA2⟩
        rcases List.mem_flatMap.mp hA2 with ⟨s2, hs2, hA3⟩
        rcases List.mem_cons.mp hA3 with heq | hmin
        · rw [heq] at hsense
          exact absurd hsense (by simp [eligibilityConstr])
        · by_cases hz : _min_runs data d2 s2 = 0
          · rw [if_pos hz] at hmin
            exact absurd hmin (List.not_mem_nil c)
          · rw [if_neg hz] at hmin
            have heqc := List.mem_singleton.mp hmin
            rw [heqc] at hterms
            have hds : d2 = d ∧ s2 = s := by
              simpa [minRunsConstr] using hterms
            rw [hds.1, hds.2] at hz
            exact hz hzero
      · rcases List.mem_map.mp hB with ⟨x, _, heqc⟩
        rw [← heqc] at hsense
        exact absurd hsense (by simp [supplyConstr])
    · rcases List.mem_map.mp hC with ⟨d2, _, heqc⟩
      rw [← heqc] at hsense
      exact absurd hsense (by simp [capRunsTotalConstr])

/-- Witness for C7 at a concrete data model with a positive minimum for
(d2, s1). -/
theorem C7_min_runs_emission_witness :
    (0 < _min_runs sampleDataMin "d2" "s1" →
      ({ name := "min_runs[" ++ "d2" ++ "," ++ "s1" ++ "]"
         terms := [(("d2", "s1"), 1)]
         sense := Sense.ge
         rhs := Bound.fin ((_min_runs sampleDataMin "d2" "s1" : Int) : ℚ) } : LinConstr)
        ∈ (build_allocation_model sampleDataMin).constraints) ∧
    (_min_runs sampleDataMin "d2" "s1" = 0 →
      ∀ c ∈ (build_allocation_model sampleDataMin).constraints,
        ¬(c.sense = Sense.ge ∧ c.terms = [(("d2", "s1"), 1)])) :=
  C7_min_runs_emission sampleDataMin "d2" "s1" (by decide) (by decide)

/-- Claim C8: with zero solutions, both allocation-row extraction and
slack extraction raise (return the error) and produce no report rows. -/
theorem C8_zero_solution_extraction (data : AllocationData)
    (runsVal : Door → SKU → ℚ) (tolerance : ℚ) (constrs : List ConstrDiag)
    (n : Nat) (h : n = 0) :
    summarize_allocations data n runsVal tolerance =
      Except.error "Model has no solution to summarize." ∧
    constraint_slacks n constrs =
      Except.error "Model has no solution; optimize first." := by
  subst h
  exact ⟨rfl, rfl⟩

/-- Witness for C8 at the sample data with solution count 0. -/
theorem C8_zero_solution_extraction_witness :
    summarize_allocations sampleData 0 (fun _ _ => 0) (1 / 1000000) =
      Except.error "Model has no solution to summarize." ∧
    constraint_slacks 0 [] =
      Except.error "Model has no solution; optimize first." :=
  C8_zero_solution_extraction sampleData (fun _ _ => 0) (1 / 1000000) [] 0 rfl

/-- Claim C9: with a solution present, the report contains for every
(door, SKU) with runs above the tolerance one row per size of that SKU's
run curve with `units = ratio * runs`, and every row's `door_size_units`
equals the sum of `units` over all emitted rows sharing that row's
(door, size) key. -/
theorem C9_door_size_units (data : AllocationData) (n : Nat)
    (runsVal : Door → SKU → ℚ) (tolerance : ℚ) (h : n ≠ 0) :
    ∃ rows : List AllocRow,
      summarize_allocations data n runsVal tolerance = Except.ok rows ∧
      (∀ d ∈ data.doors, ∀ s ∈ data.skus, tolerance < runsVal d s →
        ∀ z ∈ data.sku_sizes s, ∃ row ∈ rows,
          row.door = d ∧ row.sku = s ∧ row.size = z ∧ row.runs = runsVal d s ∧
          row.ratio = data.ratio s z ∧ row.units = data.ratio s z * runsVal d s) ∧
      (∀ row ∈ rows, row.door_size_units =
        ((rows.filter (fun r =>
          decide (r.door = row.door) && decide (r.size = row.size))).map
            (fun r => r.units)).sum) := by
  refine ⟨(baseRows data runsVal tolerance).map (fun row =>
    { row with door_size_units :=
        unitsByDoorSize (baseRows data runsVal tolerance) row.door row.size }),
    ?_, ?_, ?_⟩
  · unfold summarize_allocations
    rw [if_neg h]
  · intro d hd s hs hv z hz
    have hbase :
        ({ door := d, sku := s, size := z, runs := runsVal d s,
           ratio := data.ratio s z, units := data.ratio s z * runsVal d s,
           score := data.score (data.door_tier d) (data.heat s),
           heat := data.heat s, door_size_units := 0 } : AllocRow)
          ∈ baseRows data runsVal tolerance := by
      unfold baseRows
      refine List.mem_flatMap.mpr ⟨d, hd, List.mem_flatMap.mpr ⟨s, hs, ?_⟩⟩
      rw [if_neg (not_le.mpr hv)]
      exact List.mem_map.mpr ⟨z, hz, rfl⟩
    exact ⟨_, List.mem_map.mpr ⟨_, hbase, rfl⟩, rfl, rfl, rfl, rfl, rfl, rfl⟩
  · intro row hrow
    obtain ⟨r0, _, heq⟩ := List.mem_map.mp hrow
    rw [← heq]
    rw [List.filter_map, List.map_map]
    rfl

/-- Witness for C9 at the sample data with one positive runs value. -/
theorem C9_door_size_units_witness :
    ∃ rows : List AllocRow,
      summarize_allocations sampleData 1
          (fun d s => if d = "d1" && s = "s1" then 3 else 0) (1 / 1000000) =
        Except.ok rows ∧
      (∀ d ∈ sampleData.doors, ∀ s ∈ sampleData.skus,
        (1 / 1000000 : ℚ) < (fun d s => if d = "d1" && s = "s1" then (3 : ℚ) else 0) d s →
        ∀ z ∈ sampleData.sku_sizes s, ∃ row ∈ rows,
          row.door = d ∧ row.sku = s ∧ row.size = z ∧
          row.runs = (fun d s => if d = "d1" && s = "s1" then (3 : ℚ) else 0) d s ∧
          row.ratio = sampleData.ratio s z ∧
          row.units = sampleData.ratio s z *
            (fun d s => if d = "d1" && s = "s1" then (3 : ℚ) else 0) d s) ∧
      (∀ row ∈ rows, row.door_size_units =
        ((rows.filter (fun r =>
          decide (r.door = row.door) && decide (r.size = row.size))).map
            (fun r => r.units)).sum) :=
  C9_door_size_units sampleData 1
    (fun d s => if d = "d1" && s = "s1" then 3 else 0) (1 / 1000000) (by decide)

/-- Claim C5: when every SKU has a heat entry and every run-curve pair has
a supply entry, a missing ScoreEntry or MaxRunsEntry for an occurring
(tier, heat) pair makes table construction fail (no data model, hence no
program, is produced) with an error naming the missing keys; the named
lists are sorted and contain exactly the occurring pairs lacking the
entry. -/
theorem C5_missing_score_max_runs (doors : List DoorRow)
    (articles : List ArticleRow) (eligibility : List EligibilityRow)
    (supply : List SupplyRow) (heat : List HeatRow)
    (tier_cap_runs : List TierCapRunsRow) (tier_capacity : List TierCapacityRow)
    (h1 : missingHeatOf articles heat = [])
    (h2 : missingSupplyOf articles supply = [])
    (h3 : missingScoreOf doors articles heat tier_cap_runs ≠ [] ∨
      missingMaxRunsOf doors articles heat tier_cap_runs ≠ []) :
    (allocation_data_from_tables doors articles eligibility supply heat
        tier_cap_runs tier_capacity =
      Except.error ("Missing score entries for tier/heat pairs: " ++
        renderPairList (missingScoreOf doors articles heat tier_cap_runs)) ∨
     allocation_data_from_tables doors articles eligibility supply heat
        tier_cap_runs tier_capacity =
      Except.error ("Missing max_runs entries for tier/heat pairs: " ++
        renderPairList (missingMaxRunsOf doors articles heat tier_cap_runs))) ∧
    List.Sorted pairLe (missingScoreOf doors articles heat tier_cap_runs) ∧
    List.Sorted pairLe (missingMaxRunsOf doors articles heat tier_cap_runs) ∧
    (∀ p, p ∈ missingScoreOf doors articles heat tier_cap_runs ↔
      p ∈ requiredPairsOf doors articles heat ∧ scoreMapOf tier_cap_runs p = none) ∧
    (∀ p, p ∈ missingMaxRunsOf doors articles heat tier_cap_runs ↔
      p ∈ requiredPairsOf doors articles heat ∧ maxRunsMapOf tier_cap_runs p = none) := by
  refine ⟨?_, ?_, ?_, ?_, ?_⟩
  · unfold allocation_data_from_tables
    rw [if_neg (not_ne_iff.mpr h1), if_neg (not_ne_iff.mpr h2)]
    by_cases hsc : missingScoreOf doors articles heat tier_cap_runs = []
    · rw [if_neg (not_ne_iff.mpr hsc)]
      have hmr := h3.resolve_left (not_ne_iff.mpr hsc)
      rw [if_pos hmr]
      exact Or.inr rfl
    · rw [if_pos hsc]
      exact Or.inl rfl
  · exact List.sorted_insertionSort pairLe _
  · exact List.sorted_insertionSort pairLe _
  · intro p
    unfold missingScoreOf
    rw [(List.perm_insertionSort pairLe _).mem_iff, List.mem_filter]
    simp [Option.isNone_iff_eq_none]
  · intro p
    unfold missingMaxRunsOf
    rw [(List.perm_insertionSort pairLe _).mem_iff, List.mem_filter]
    simp [Option.isNone_iff_eq_none]

/-- Witness for C5 at concrete tables with a complete heat and supply but
an empty tier/heat lookup table. -/
theorem C5_missing_score_max_runs_witness :
    (allocation_data_from_tables [⟨"d1", "A"⟩] [⟨"s1", "S"⟩] [⟨"d1", "s1", 1⟩]
        [⟨"s1", "S", 5, 2⟩] [⟨"s1", "H"⟩] [] [] =
      Except.error ("Missing score entries for tier/heat pairs: " ++
        renderPairList (missingScoreOf [⟨"d1", "A"⟩] [⟨"s1", "S"⟩] [⟨"s1", "H"⟩] [])) ∨
     allocation_data_from_tables [⟨"d1", "A"⟩] [⟨"s1", "S"⟩] [⟨"d1", "s1", 1⟩]
        [⟨"s1", "S", 5, 2⟩] [⟨"s1", "H"⟩] [] [] =
      Except.error ("Missing max_runs entries for tier/heat pairs: " ++
        renderPairList (missingMaxRunsOf [⟨"d1", "A"⟩] [⟨"s1", "S"⟩] [⟨"s1", "H"⟩] []))) ∧
    List.Sorted pairLe (missingScoreOf [⟨"d1", "A"⟩] [⟨"s1", "S"⟩] [⟨"s1", "H"⟩] []) ∧
    List.Sorted pairLe (missingMaxRunsOf [⟨"d1", "A"⟩] [⟨"s1", "S"⟩] [⟨"s1", "H"⟩] []) ∧
    (∀ p, p ∈ missingScoreOf [⟨"d1", "A"⟩] [⟨"s1", "S"⟩] [⟨"s1", "H"⟩] [] ↔
      p ∈ requiredPairsOf [⟨"d1", "A"⟩] [⟨"s1", "S"⟩] [⟨"s1", "H"⟩] ∧
        scoreMapOf [] p = none) ∧
    (∀ p, p ∈ missingMaxRunsOf [⟨"d1", "A"⟩] [⟨"s1", "S"⟩] [⟨"s1", "H"⟩] [] ↔
      p ∈ requiredPairsOf [⟨"d1", "A"⟩] [⟨"s1", "S"⟩] [⟨"s1", "H"⟩] ∧
        maxRunsMapOf [] p = none) :=
  C5_missing_score_max_runs [⟨"d1", "A"⟩] [⟨"s1", "S"⟩] [⟨"d1", "s1", 1⟩]
    [⟨"s1", "S", 5, 2⟩] [⟨"s1", "H"⟩] [] [] (by decide) (by decide)
    (Or.inl (by decide))

/-- Claim C10: every (SKU, size) pair of any run curve must have a supply
entry; otherwise table construction fails with an error listing exactly
the missing pairs in sorted order. -/
theorem C10_missing_supply (doors : List DoorRow) (articles : List ArticleRow)
    (eligibility : List EligibilityRow) (supply : List SupplyRow)
    (heat : List HeatRow) (tier_cap_runs : List TierCapRunsRow)
    (tier_capacity : List TierCapacityRow)
    (h1 : missingHeatOf articles heat = [])
    (h2 : missingSupplyOf articles supply ≠ []) :
    allocation_data_from_tables doors articles eligibility supply heat
        tier_cap_runs tier_capacity =
      Except.error ("Missing supply entries for SKU×size pairs: " ++
        renderPairList (missingSupplyOf articles supply)) ∧
    List.Sorted pairLe (missingSupplyOf articles supply) ∧
    (∀ p, p ∈ missingSupplyOf articles supply ↔
      p ∈ expectedSizeKeysOf articles ∧ supplyUnitsMapOf supply p = none) := by
  refine ⟨?_, ?_, ?_⟩
  · unfold allocation_data_from_tables
    rw [if_neg (not_ne_iff.mpr h1), if_pos h2]
  · exact List.sorted_insertionSort pairLe _
  · intro p
    unfold missingSupplyOf
    rw [(List.perm_insertionSort pairLe _).mem_iff, List.mem_filter]
    simp [Option.isNone_iff_eq_none]

/-- Witness for C10 at concrete tables whose supply table misses the run
curve's only (SKU, size) pair. -/
theorem C10_missing_supply_witness :
    allocation_data_from_tables [⟨"d1", "A"⟩] [⟨"s1", "S"⟩] [⟨"d1", "s1", 1⟩]
        [] [⟨"s1", "H"⟩] [⟨"A", "H", 3, 10⟩] [] =
      Except.error ("Missing supply entries for SKU×size pairs: " ++
        renderPairList (missingSupplyOf [⟨"s1", "S"⟩] [])) ∧
    List.Sorted pairLe (missingSupplyOf [⟨"s1", "S"⟩] []) ∧
    (∀ p, p ∈ missingSupplyOf [⟨"s1", "S"⟩] [] ↔
      p ∈ expectedSizeKeysOf [⟨"s1", "S"⟩] ∧ supplyUnitsMapOf [] p = none) :=
  C10_missing_supply [⟨"d1", "A"⟩] [⟨"s1", "S"⟩] [⟨"d1", "s1", 1⟩] []
    [⟨"s1", "H"⟩] [⟨"A", "H", 3, 10⟩] [] (by decide) (by decide)

/-- Counterexample to claim C6 as stated: at key sets that differ in
exactly the pair ("sku1", "S"), the supply/ratio key-set check fails with
the fixed message, and that message does not mention the mismatching
pair's identifier "sku1" anywhere, so the error does not identify the
mismatching pair. -/
theorem C6_counterexample :
    checkSupplyRatioKeys [("sku1", "S")] [] = Except.error supplyRatioMismatchMsg ∧
    containsSeq supplyRatioMismatchMsg.data "sku1".data = false :=
  ⟨rfl, by decide⟩

/-- Claim C6 amended: if the supply key set and the ratio key set differ,
the key-set check of data-model construction fails — but with the fixed
message that identifies no pair; moreover the two key sets handed to the
check are the key sets of dictionaries built from the same supply-table
rows, hence always identical, so the mismatch branch is unreachable from
tabular input. -/
theorem C6_supply_ratio_keys (ks rs : List (SKU × Size))
    (h : sameKeySet ks rs = false) :
    checkSupplyRatioKeys ks rs = Except.error supplyRatioMismatchMsg ∧
    ∀ supply : List SupplyRow,
      dictKeys (supply.map (fun r => ((r.sku, r.size), r.supply_units))) =
        dictKeys (supply.map (fun r => ((r.sku, r.size), r.ratio))) := by
  constructor
  · unfold checkSupplyRatioKeys
    rw [h]
    rfl
  · intro supply
    unfold dictKeys
    rw [List.map_map, List.map_map]
    rfl

/-- Witness for the amended C6 at concrete differing key sets. -/
theorem C6_supply_ratio_keys_witness :
    checkSupplyRatioKeys [("sku1", "S")] [("sku2", "S")] =
      Except.error supplyRatioMismatchMsg ∧
    ∀ supply : List SupplyRow,
      dictKeys (supply.map (fun r => ((r.sku, r.size), r.supply_units))) =
        dictKeys (supply.map (fun r => ((r.sku, r.size), r.ratio))) :=
  C6_supply_ratio_keys [("sku1", "S")] [("sku2", "S")] (by decide)

end HypeAllocation
